import Mathlib

/-!
# Verification of the live-subtitle relay server (src/backend/server.js)

A shallow embedding of the session/broadcast relay core:
the session store (`activeSessions`, a JS `Map`), the message router
(`handleWebSocketMessage`), the broadcaster (`broadcastSubtitle`),
the connection gateway callbacks (`stepEvent`), and the health query
(`apiHealth`).

JSON values are modelled by `JVal`; a JS object is an association list
`JObj` in which a later binding overrides an earlier one (this is exactly
the observable behaviour of object spread `{...a, k: v}`), and `jget`
reads a property accordingly.  Time (`Date.now()`) is a parameter `now`
of each handler; the transport channel of a session is identified with
its session id, and a send over a channel is recorded as a `Send` pair
(target id, message object).  Send failures inside the broadcast loop
(the per-recipient try/catch) are modelled by an oracle
`fails : String → Bool` saying which recipients' channels throw.
-/

/-- A JSON-representable JS value (no nested objects are needed by the relay). -/
inductive JVal where
  | str : String → JVal
  | num : Int → JVal
  | bool : Bool → JVal
  | null : JVal
deriving DecidableEq, Repr

/-- A JS object: association list of properties; a later binding overrides an
earlier one, matching object-spread semantics. -/
abbrev JObj := List (String × JVal)

/-- Property read on a `JObj`: the LAST binding of the key wins (spread
`{...a, k: v}` is modelled as `a ++ [(k, v)]`).  `none` is JS `undefined`. -/
def jget : JObj → String → Option JVal
  | [], _ => none
  | (k', v) :: rest, k =>
    match jget rest k with
    | some v' => some v'
    | none => if k' = k then some v else none

/-- JS truthiness of a possibly-absent value: `undefined`, `null`, `false`,
`0` and `""` are falsy. -/
def jsTruthy : Option JVal → Bool
  | none => false
  | some JVal.null => false
  | some (JVal.bool b) => b
  | some (JVal.num n) => n != 0
  | some (JVal.str s) => s != ""

/-- JS `v || d`: the value if truthy, otherwise the default. -/
def jsOrDefault (v : Option JVal) (d : JVal) : JVal :=
  if jsTruthy v then v.getD d else d

/-- JS `ToNumber` coercion (as used by `now - data.timestamp`); `none` is NaN.
Integer-valued strings only: the relay never produces fractional timestamps. -/
def jsToNumber : Option JVal → Option Int
  | none => none
  | some JVal.null => some 0
  | some (JVal.bool b) => some (if b then 1 else 0)
  | some (JVal.num n) => some n
  | some (JVal.str s) => if s = "" then some 0 else s.toInt?

/-- JS string coercion, as used by the template literal
`Unknown message type: ${data.type}`. -/
def jsToString : Option JVal → String
  | none => "undefined"
  | some JVal.null => "null"
  | some (JVal.bool b) => if b then "true" else "false"
  | some (JVal.num n) => toString n
  | some (JVal.str s) => s

/-- One session record of `activeSessions` (server.js lines 25-30); the `ws`
channel handle is identified with the session id and therefore not stored. -/
structure Session where
  startTime : Int
  language : JVal
  isActive : Bool
deriving DecidableEq, Repr

/-- The server state: the `activeSessions` map, as an association list in
insertion order (JS `Map` iterates in insertion order; keys are unique). -/
structure ServerState where
  activeSessions : List (String × Session)
deriving DecidableEq, Repr

/-- A send over a session's channel: (target session id, message object). -/
abbrev Send := String × JObj

/-- `Map.get`: first (and, keys being unique, only) binding of the key. -/
def lookupEntry : List (String × Session) → String → Option Session
  | [], _ => none
  | (k, v) :: rest, sid => if k = sid then some v else lookupEntry rest sid

/-- `activeSessions.get(sid)`. -/
def lookupSession (st : ServerState) (sid : String) : Option Session :=
  lookupEntry st.activeSessions sid

/-- `Map.set`: update the existing entry in place (preserving insertion
order) or append a new one. -/
def setEntry : List (String × Session) → String → Session → List (String × Session)
  | [], k, v => [(k, v)]
  | (k', v') :: rest, k, v =>
    if k' = k then (k, v) :: rest else (k', v') :: setEntry rest k v

/-- `Map.delete(sid)`: remove the entry with that key, if any. -/
def deleteEntry (l : List (String × Session)) (sid : String) : List (String × Session) :=
  l.filter (fun p => p.1 != sid)

/-- `activeSessions.delete(sid)` as a state transformer. -/
def deleteSession (st : ServerState) (sid : String) : ServerState :=
  ⟨deleteEntry st.activeSessions sid⟩

/-- The keys currently in the store. -/
def sessionKeys (st : ServerState) : List String :=
  st.activeSessions.map (fun p => p.1)

/-- The `activeSessions.forEach` loop of `broadcastSubtitle` (lines 124-132):
for each entry other than the sender that is marked active, attempt the send;
a throwing send (`fails sid = true`) is caught and skipped, and the loop
continues with the remaining entries. -/
def broadcastLoop (fails : String → Bool) (senderSessionId : String) (broadcastData : JObj) :
    List (String × Session) → List Send
  | [] => []
  | (sid, session) :: rest =>
    if sid != senderSessionId && session.isActive then
      (if fails sid then [] else [(sid, broadcastData)]) ++
        broadcastLoop fails senderSessionId broadcastData rest
    else
      broadcastLoop fails senderSessionId broadcastData rest

/-- `broadcastSubtitle(senderSessionId, subtitleData)` (lines 112-133): no-op
when the sender is absent; otherwise builds
`{...subtitleData, serverTimestamp: now, sessionId: senderSessionId}` and
attempts delivery to every other active session.  Returns the (unchanged)
state together with the successful sends. -/
def broadcastSubtitle (fails : String → Bool) (st : ServerState) (senderSessionId : String)
    (subtitleData : JObj) (now : Int) : ServerState × List Send :=
  match lookupSession st senderSessionId with
  | none => (st, [])
  | some _ =>
    let broadcastData := subtitleData ++
      [("serverTimestamp", JVal.num now), ("sessionId", JVal.str senderSessionId)]
    (st, broadcastLoop fails senderSessionId broadcastData st.activeSessions)

/-- `handleWebSocketMessage(sessionId, data)` (lines 63-110): no-op when the
session is absent; otherwise a switch on `data.type` (strict string
equality, like the JS `switch`).  Both `Date.now()` calls inside a handler
are the single event time `now`. -/
def handleWebSocketMessage (fails : String → Bool) (st : ServerState) (sessionId : String)
    (data : JObj) (now : Int) : ServerState × List Send :=
  match lookupSession st sessionId with
  | none => (st, [])
  | some session =>
    if jget data "type" = some (JVal.str "start_listening") then
      let lang := jsOrDefault (jget data "language") (JVal.str "en-US")
      (⟨setEntry st.activeSessions sessionId
          { session with isActive := true, language := lang, startTime := now }⟩,
       [(sessionId, [("type", JVal.str "listening_started"),
                     ("timestamp", JVal.num now), ("language", lang)])])
    else if jget data "type" = some (JVal.str "stop_listening") then
      (⟨setEntry st.activeSessions sessionId { session with isActive := false }⟩,
       [(sessionId, [("type", JVal.str "listening_stopped"), ("timestamp", JVal.num now)])])
    else if jget data "type" = some (JVal.str "subtitle_update") then
      broadcastSubtitle fails st sessionId data now
    else if jget data "type" = some (JVal.str "ping") then
      (st, [(sessionId,
        [("type", JVal.str "pong"), ("timestamp", JVal.num now),
         ("latency",
           match jsToNumber (jget data "timestamp") with
           | some t => JVal.num (now - t)
           | none => JVal.null)])])  -- NaN serializes as null
    else
      (st, [(sessionId,
        [("type", JVal.str "error"),
         ("message", JVal.str ("Unknown message type: " ++ jsToString (jget data "type")))])])

/-- The transport events a connection delivers to the gateway.  A `frame`
carries the decode result of the inbound text (`none` = `JSON.parse` threw). -/
inductive Event where
  | connect (sid : String) (now : Int)
  | frame (sid : String) (decoded : Option JObj) (now : Int)
  | close (sid : String)
  | error (sid : String)

/-- The connection gateway (lines 20-61): `connect` stores a fresh inactive
session and sends `session_init`; a malformed frame answers
`error: Invalid message format` on the connection's own channel; a decoded
frame goes to the router; `close` and transport `error` both delete the
session. -/
def stepEvent (fails : String → Bool) (st : ServerState) (e : Event) : ServerState × List Send :=
  match e with
  | Event.connect sid now =>
    (⟨setEntry st.activeSessions sid
        { startTime := now, language := JVal.str "en-US", isActive := false }⟩,
     [(sid, [("type", JVal.str "session_init"),
             ("sessionId", JVal.str sid), ("timestamp", JVal.num now)])])
  | Event.frame sid none _ =>
    (st, [(sid, [("type", JVal.str "error"), ("message", JVal.str "Invalid message format")])])
  | Event.frame sid (some data) now =>
    handleWebSocketMessage fails st sid data now
  | Event.close sid => (deleteSession st sid, [])
  | Event.error sid => (deleteSession st sid, [])

/-- The `/api/health` response body (lines 141-148). -/
def apiHealth (st : ServerState) (now : Int) (uptime : Int) : JObj :=
  [("status", JVal.str "healthy"), ("timestamp", JVal.num now),
   ("activeSessions", JVal.num (st.activeSessions.length : Int)),
   ("uptime", JVal.num uptime)]

/-- The `total` and `active` counts of the `/api/sessions` response
(lines 150-164): total live sessions, and sessions with `isActive = true`. -/
def apiSessionsSummary (st : ServerState) : Int × Int :=
  ((st.activeSessions.length : Int),
   ((st.activeSessions.filter (fun q => q.2.isActive)).length : Int))

/-- A broadcast in which no recipient's channel throws. -/
def noFail : String → Bool := fun _ => false

/-! ## Store and object lemmas -/

theorem jget_append_of_some {o o' : JObj} {k : String} {v : JVal}
    (h : jget o' k = some v) : jget (o ++ o') k = some v := by
  induction o with
  | nil => simpa using h
  | cons p rest ih =>
    obtain ⟨k', w⟩ := p
    simp only [List.cons_append, jget, List.append_eq] at ih ⊢
    rw [ih]

theorem lookupEntry_setEntry_self (l : List (String × Session)) (k : String) (v : Session) :
    lookupEntry (setEntry l k v) k = some v := by
  induction l with
  | nil => simp [setEntry, lookupEntry]
  | cons p rest ih =>
    obtain ⟨k', v'⟩ := p
    by_cases h : k' = k
    · simp [setEntry, h, lookupEntry]
    · simp [setEntry, h, lookupEntry, ih]

theorem lookupEntry_setEntry_ne (l : List (String × Session)) {k k' : String} (v : Session)
    (h : k' ≠ k) : lookupEntry (setEntry l k v) k' = lookupEntry l k' := by
  induction l with
  | nil => simp [setEntry, lookupEntry, Ne.symm h]
  | cons p rest ih =>
    obtain ⟨k₀, v₀⟩ := p
    by_cases h₀ : k₀ = k
    · subst h₀
      simp [setEntry, lookupEntry, Ne.symm h]
    · simp [setEntry, h₀, lookupEntry, ih]

theorem lookupEntry_deleteEntry_self (l : List (String × Session)) (k : String) :
    lookupEntry (deleteEntry l k) k = none := by
  induction l with
  | nil => rfl
  | cons p rest ih =>
    obtain ⟨k₀, v₀⟩ := p
    by_cases h₀ : k₀ = k
    · simpa [deleteEntry, List.filter_cons, h₀] using ih
    · simpa [deleteEntry, List.filter_cons, h₀, lookupEntry] using ih

theorem deleteEntry_absent {l : List (String × Session)} {k : String}
    (h : k ∉ l.map (fun p => p.1)) : deleteEntry l k = l := by
  induction l with
  | nil => rfl
  | cons p rest ih =>
    obtain ⟨k₀, v₀⟩ := p
    simp only [List.map_cons, List.mem_cons] at h
    push_neg at h
    have hne : k₀ ≠ k := fun hh => h.1 hh.symm
    simpa [deleteEntry, List.filter_cons, hne] using ih h.2

theorem deleteEntry_idem (l : List (String × Session)) (k : String) :
    deleteEntry (deleteEntry l k) k = deleteEntry l k := by
  induction l with
  | nil => rfl
  | cons p rest ih =>
    obtain ⟨k₀, v₀⟩ := p
    by_cases h₀ : k₀ = k
    · simp [deleteEntry, List.filter_cons, h₀, ih]
    · simp [deleteEntry, List.filter_cons, h₀, ih]

/-! ## Broadcast lemmas -/

theorem broadcastLoop_eq_filter (fails : String → Bool) (S : String) (bd : JObj)
    (l : List (String × Session)) :
    broadcastLoop fails S bd l =
      (l.filter (fun q => (q.1 != S && q.2.isActive) && !fails q.1)).map
        (fun q => (q.1, bd)) := by
  induction l with
  | nil => rfl
  | cons p rest ih =>
    obtain ⟨sid, s⟩ := p
    cases h1 : (sid != S && s.isActive) with
    | false => simp [broadcastLoop, h1, List.filter_cons, ih]
    | true =>
      cases h2 : fails sid with
      | false => simp [broadcastLoop, h1, h2, List.filter_cons, ih]
      | true => simp [broadcastLoop, h1, h2, List.filter_cons, ih]

theorem broadcastLoop_setEntry_sender (fails : String → Bool) (S : String) (bd : JObj)
    (l : List (String × Session)) (v : Session) :
    broadcastLoop fails S bd (setEntry l S v) = broadcastLoop fails S bd l := by
  induction l with
  | nil => simp [setEntry, broadcastLoop]
  | cons p rest ih =>
    obtain ⟨k₀, s₀⟩ := p
    by_cases h₀ : k₀ = S
    · subst h₀
      simp [setEntry, broadcastLoop]
    · cases h1 : (k₀ != S && s₀.isActive) <;>
        simp [setEntry, h₀, broadcastLoop, h1, ih]

theorem broadcastSubtitle_fst (fails : String → Bool) (st : ServerState) (S : String)
    (d : JObj) (n : Int) : (broadcastSubtitle fails st S d n).1 = st := by
  cases h : lookupSession st S <;> simp [broadcastSubtitle, h]

/-! ## Router case lemmas -/

theorem handle_absent {fails : String → Bool} {st : ServerState} {sid : String} {data : JObj}
    {now : Int} (hs : lookupSession st sid = none) :
    handleWebSocketMessage fails st sid data now = (st, []) := by
  simp [handleWebSocketMessage, hs]

theorem handle_start {fails : String → Bool} {st : ServerState} {sid : String} {data : JObj}
    {now : Int} {s : Session} (hs : lookupSession st sid = some s)
    (ht : jget data "type" = some (JVal.str "start_listening")) :
    handleWebSocketMessage fails st sid data now =
      (⟨setEntry st.activeSessions sid
          { s with isActive := true,
                   language := jsOrDefault (jget data "language") (JVal.str "en-US"),
                   startTime := now }⟩,
       [(sid, [("type", JVal.str "listening_started"), ("timestamp", JVal.num now),
               ("language", jsOrDefault (jget data "language") (JVal.str "en-US"))])]) := by
  simp [handleWebSocketMessage, hs, ht]

theorem handle_stop {fails : String → Bool} {st : ServerState} {sid : String} {data : JObj}
    {now : Int} {s : Session} (hs : lookupSession st sid = some s)
    (ht : jget data "type" = some (JVal.str "stop_listening")) :
    handleWebSocketMessage fails st sid data now =
      (⟨setEntry st.activeSessions sid { s with isActive := false }⟩,
       [(sid, [("type", JVal.str "listening_stopped"), ("timestamp", JVal.num now)])]) := by
  simp [handleWebSocketMessage, hs, ht]

theorem handle_subtitle {fails : String → Bool} {st : ServerState} {sid : String} {data : JObj}
    {now : Int} {s : Session} (hs : lookupSession st sid = some s)
    (ht : jget data "type" = some (JVal.str "subtitle_update")) :
    handleWebSocketMessage fails st sid data now = broadcastSubtitle fails st sid data now := by
  simp [handleWebSocketMessage, hs, ht]

theorem handle_ping {fails : String → Bool} {st : ServerState} {sid : String} {data : JObj}
    {now : Int} {s : Session} (hs : lookupSession st sid = some s)
    (ht : jget data "type" = some (JVal.str "ping")) :
    handleWebSocketMessage fails st sid data now =
      (st, [(sid, [("type", JVal.str "pong"), ("timestamp", JVal.num now),
            ("latency",
              match jsToNumber (jget data "timestamp") with
              | some t => JVal.num (now - t)
              | none => JVal.null)])]) := by
  simp [handleWebSocketMessage, hs, ht]

theorem handle_default {fails : String → Bool} {st : ServerState} {sid : String} {data : JObj}
    {now : Int} {s : Session} (hs : lookupSession st sid = some s)
    (h1 : jget data "type" ≠ some (JVal.str "start_listening"))
    (h2 : jget data "type" ≠ some (JVal.str "stop_listening"))
    (h3 : jget data "type" ≠ some (JVal.str "subtitle_update"))
    (h4 : jget data "type" ≠ some (JVal.str "ping")) :
    handleWebSocketMessage fails st sid data now =
      (st, [(sid, [("type", JVal.str "error"),
        ("message", JVal.str ("Unknown message type: " ++ jsToString (jget data "type")))])]) := by
  simp [handleWebSocketMessage, hs, h1, h2, h3, h4]

/-! ## Concrete fixtures for witnesses and counterexamples -/

/-- One inactive session "A". -/
def stA : ServerState :=
  ⟨[("A", { startTime := 0, language := JVal.str "en-US", isActive := false })]⟩

/-- One active session "B". -/
def stB : ServerState :=
  ⟨[("B", { startTime := 0, language := JVal.str "en-US", isActive := true })]⟩

/-- Two sessions: "A" inactive, "B" active. -/
def stAB : ServerState :=
  ⟨[("A", { startTime := 0, language := JVal.str "en-US", isActive := false }),
    ("B", { startTime := 0, language := JVal.str "en-US", isActive := true })]⟩

/-- Three sessions, all active. -/
def stABC : ServerState :=
  ⟨[("A", { startTime := 0, language := JVal.str "en-US", isActive := true }),
    ("B", { startTime := 0, language := JVal.str "en-US", isActive := true }),
    ("C", { startTime := 0, language := JVal.str "en-US", isActive := true })]⟩

/-! ## Claim theorems -/

/-- C1: for a `subtitle_update` from a sender S present in the store, the
broadcaster sends `{...payload, serverTimestamp: now, sessionId: S}` to
exactly the sessions distinct from S with `isActive = true` (never to S,
never to an inactive session); if S is absent the broadcast is a no-op. -/
theorem broadcast_targets_exactly_other_active_sessions
    (st : ServerState) (S : String) (data : JObj) (now : Int) :
    (∀ s, lookupSession st S = some s →
      broadcastSubtitle noFail st S data now =
        (st, (st.activeSessions.filter (fun q => q.1 != S && q.2.isActive)).map
          (fun q => (q.1, data ++ [("serverTimestamp", JVal.num now),
                                   ("sessionId", JVal.str S)])))) ∧
    (lookupSession st S = none → broadcastSubtitle noFail st S data now = (st, [])) := by
  constructor
  · intro s hs
    simp [broadcastSubtitle, hs, broadcastLoop_eq_filter, noFail]
  · intro hs
    simp [broadcastSubtitle, hs]

theorem broadcast_targets_exactly_other_active_sessions_witness :
    (lookupSession stAB "A" =
      some { startTime := 0, language := JVal.str "en-US", isActive := false }) ∧
    broadcastSubtitle noFail stAB "A" [("text", JVal.str "hi")] 5 =
      (stAB, (stAB.activeSessions.filter (fun q => q.1 != "A" && q.2.isActive)).map
        (fun q => (q.1, [("text", JVal.str "hi")] ++
          [("serverTimestamp", JVal.num 5), ("sessionId", JVal.str "A")]))) :=
  ⟨by decide,
   (broadcast_targets_exactly_other_active_sessions stAB "A" [("text", JVal.str "hi")] 5).1
     { startTime := 0, language := JVal.str "en-US", isActive := false } (by decide)⟩

/-- C5: a send failure to one broadcast recipient is caught: every remaining
eligible recipient whose channel does not throw still receives the message,
the state is unchanged, and the sender's connection is untouched. -/
theorem broadcast_failure_isolated
    (fails : String → Bool) (st : ServerState) (S : String) {s : Session}
    (data : JObj) (now : Int) (hs : lookupSession st S = some s) :
    (broadcastSubtitle fails st S data now).1 = st ∧
    ∀ r srec, (r, srec) ∈ st.activeSessions → r ≠ S → srec.isActive = true →
      fails r = false →
      (r, data ++ [("serverTimestamp", JVal.num now), ("sessionId", JVal.str S)]) ∈
        (broadcastSubtitle fails st S data now).2 := by
  refine ⟨broadcastSubtitle_fst _ _ _ _ _, ?_⟩
  intro r srec hmem hr hact hf
  simp only [broadcastSubtitle, hs, broadcastLoop_eq_filter]
  refine List.mem_map.mpr ⟨(r, srec), List.mem_filter.mpr ⟨hmem, ?_⟩, rfl⟩
  simp [hr, hact, hf]

theorem broadcast_failure_isolated_witness :
    (lookupSession stABC "A" =
      some { startTime := 0, language := JVal.str "en-US", isActive := true }) ∧
    ((broadcastSubtitle (fun r => r == "B") stABC "A" [("text", JVal.str "hi")] 5).1 = stABC ∧
     ∀ r srec, (r, srec) ∈ stABC.activeSessions → r ≠ "A" → srec.isActive = true →
       (fun x => x == "B") r = false →
       (r, [("text", JVal.str "hi")] ++
         [("serverTimestamp", JVal.num 5), ("sessionId", JVal.str "A")]) ∈
         (broadcastSubtitle (fun r => r == "B") stABC "A" [("text", JVal.str "hi")] 5).2) :=
  ⟨by decide,
   broadcast_failure_isolated (fun r => r == "B") stABC "A"
     (s := { startTime := 0, language := JVal.str "en-US", isActive := true })
     [("text", JVal.str "hi")] 5 (by decide)⟩

/-- C10: every message delivered by a broadcast carries the server-assigned
sender id in `sessionId` and the server time in `serverTimestamp`, even when
the client payload itself contains those fields (spread override). -/
theorem broadcast_overrides_client_identity_fields
    (fails : String → Bool) (st : ServerState) (S : String) (data : JObj) (now : Int)
    (r : String) (m : JObj)
    (hm : (r, m) ∈ (broadcastSubtitle fails st S data now).2) :
    jget m "sessionId" = some (JVal.str S) ∧
    jget m "serverTimestamp" = some (JVal.num now) := by
  cases hs : lookupSession st S with
  | none => simp [broadcastSubtitle, hs] at hm
  | some s =>
    simp only [broadcastSubtitle, hs, broadcastLoop_eq_filter] at hm
    obtain ⟨q, hq, hfq⟩ := List.mem_map.mp hm
    have hm2 : m = data ++
        [("serverTimestamp", JVal.num now), ("sessionId", JVal.str S)] :=
      (congrArg Prod.snd hfq).symm
    subst hm2
    exact ⟨jget_append_of_some rfl, jget_append_of_some rfl⟩

theorem broadcast_overrides_client_identity_fields_witness :
    (("B", [("sessionId", JVal.str "evil"), ("serverTimestamp", JVal.num 0),
            ("text", JVal.str "hi")] ++
           [("serverTimestamp", JVal.num 5), ("sessionId", JVal.str "A")]) ∈
      (broadcastSubtitle noFail stAB "A"
        [("sessionId", JVal.str "evil"), ("serverTimestamp", JVal.num 0),
         ("text", JVal.str "hi")] 5).2) ∧
    (jget ([("sessionId", JVal.str "evil"), ("serverTimestamp", JVal.num 0),
            ("text", JVal.str "hi")] ++
           [("serverTimestamp", JVal.num 5), ("sessionId", JVal.str "A")]) "sessionId" =
        some (JVal.str "A") ∧
     jget ([("sessionId", JVal.str "evil"), ("serverTimestamp", JVal.num 0),
            ("text", JVal.str "hi")] ++
           [("serverTimestamp", JVal.num 5), ("sessionId", JVal.str "A")]) "serverTimestamp" =
        some (JVal.num 5)) :=
  ⟨by decide,
   broadcast_overrides_client_identity_fields noFail stAB "A"
     [("sessionId", JVal.str "evil"), ("serverTimestamp", JVal.num 0),
      ("text", JVal.str "hi")] 5 "B" _ (by decide)⟩

/-- C3 counterexample: `start_listening` with `language: ""` (a language
field that IS given) stores the default `"en-US"`, not the given `""`:
`data.language || 'en-US'` also replaces every falsy given value. -/
theorem start_listening_empty_language_counterexample :
    lookupSession (handleWebSocketMessage noFail stA "A"
        [("type", JVal.str "start_listening"), ("language", JVal.str "")] 7).1 "A" =
      some { startTime := 7, language := JVal.str "en-US", isActive := true } ∧
    JVal.str "en-US" ≠ JVal.str "" := by
  constructor
  · decide
  · decide

/-- C3 (amended): `start_listening` on a stored session sets `isActive :=
true`, `startTime := now`, and `language` to the payload's `language` value
when that value is truthy and to `"en-US"` when the field is absent or falsy
(e.g. `""`); it replies `listening_started` with the timestamp and the
resolved language on the session's own channel. -/
theorem start_listening_sets_state_and_replies
    (fails : String → Bool) (st : ServerState) (sid : String) {s : Session}
    (data : JObj) (now : Int)
    (hs : lookupSession st sid = some s)
    (ht : jget data "type" = some (JVal.str "start_listening")) :
    handleWebSocketMessage fails st sid data now =
      (⟨setEntry st.activeSessions sid
          { s with isActive := true,
                   language := jsOrDefault (jget data "language") (JVal.str "en-US"),
                   startTime := now }⟩,
       [(sid, [("type", JVal.str "listening_started"), ("timestamp", JVal.num now),
               ("language", jsOrDefault (jget data "language") (JVal.str "en-US"))])]) ∧
    lookupSession (handleWebSocketMessage fails st sid data now).1 sid =
      some { s with isActive := true,
                    language := jsOrDefault (jget data "language") (JVal.str "en-US"),
                    startTime := now } ∧
    (∀ v, jget data "language" = some v → jsTruthy (some v) = true →
      jsOrDefault (jget data "language") (JVal.str "en-US") = v) ∧
    (jsTruthy (jget data "language") = false →
      jsOrDefault (jget data "language") (JVal.str "en-US") = JVal.str "en-US") := by
  refine ⟨handle_start hs ht, ?_, ?_, ?_⟩
  · rw [handle_start hs ht]
    exact lookupEntry_setEntry_self _ _ _
  · intro v hv htr
    simp [jsOrDefault, hv, htr]
  · intro hfal
    simp [jsOrDefault, hfal]

theorem start_listening_sets_state_and_replies_witness :
    (lookupSession stA "A" =
      some { startTime := 0, language := JVal.str "en-US", isActive := false }) ∧
    (jget [("type", JVal.str "start_listening"), ("language", JVal.str "fr-FR")] "type" =
      some (JVal.str "start_listening")) ∧
    (handleWebSocketMessage noFail stA "A"
        [("type", JVal.str "start_listening"), ("language", JVal.str "fr-FR")] 7 =
      (⟨setEntry stA.activeSessions "A"
          { startTime := 7,
            language := jsOrDefault
              (jget [("type", JVal.str "start_listening"),
                     ("language", JVal.str "fr-FR")] "language") (JVal.str "en-US"),
            isActive := true }⟩,
       [("A", [("type", JVal.str "listening_started"), ("timestamp", JVal.num 7),
               ("language", jsOrDefault
                 (jget [("type", JVal.str "start_listening"),
                        ("language", JVal.str "fr-FR")] "language") (JVal.str "en-US"))])]) ∧
     lookupSession (handleWebSocketMessage noFail stA "A"
         [("type", JVal.str "start_listening"), ("language", JVal.str "fr-FR")] 7).1 "A" =
       some { startTime := 7,
              language := jsOrDefault
                (jget [("type", JVal.str "start_listening"),
                       ("language", JVal.str "fr-FR")] "language") (JVal.str "en-US"),
              isActive := true } ∧
     (∀ v, jget [("type", JVal.str "start_listening"),
                 ("language", JVal.str "fr-FR")] "language" = some v →
        jsTruthy (some v) = true →
        jsOrDefault (jget [("type", JVal.str "start_listening"),
                           ("language", JVal.str "fr-FR")] "language")
          (JVal.str "en-US") = v) ∧
     (jsTruthy (jget [("type", JVal.str "start_listening"),
                      ("language", JVal.str "fr-FR")] "language") = false →
        jsOrDefault (jget [("type", JVal.str "start_listening"),
                           ("language", JVal.str "fr-FR")] "language")
          (JVal.str "en-US") = JVal.str "en-US")) :=
  ⟨by decide, by decide,
   start_listening_sets_state_and_replies noFail stA "A"
     (s := { startTime := 0, language := JVal.str "en-US", isActive := false })
     [("type", JVal.str "start_listening"), ("language", JVal.str "fr-FR")] 7
     (by decide) (by decide)⟩

/-- C4 counterexample: a `ping` whose timestamp lies one millisecond in the
server's future yields `latency = -1 < 0`, so the latency is NOT always
nonnegative. -/
theorem ping_negative_latency_counterexample :
    handleWebSocketMessage noFail stA "A"
        [("type", JVal.str "ping"), ("timestamp", JVal.num 6)] 5 =
      (stA, [("A", [("type", JVal.str "pong"), ("timestamp", JVal.num 5),
                    ("latency", JVal.num (-1))])]) ∧
    ¬ (0 ≤ (-1 : Int)) := by
  constructor
  · decide
  · decide

/-- C4 (amended): a `ping` with numeric timestamp T from a stored session is
answered with `pong` carrying `latency = now - T`; this latency is
nonnegative exactly when T does not exceed the server's current time (the
code never clamps, so a future T gives a negative latency). -/
theorem ping_pong_latency
    (fails : String → Bool) (st : ServerState) (sid : String) {s : Session}
    (data : JObj) (now T : Int)
    (hs : lookupSession st sid = some s)
    (ht : jget data "type" = some (JVal.str "ping"))
    (hT : jget data "timestamp" = some (JVal.num T)) :
    handleWebSocketMessage fails st sid data now =
      (st, [(sid, [("type", JVal.str "pong"), ("timestamp", JVal.num now),
                   ("latency", JVal.num (now - T))])]) ∧
    (T ≤ now → 0 ≤ now - T) := by
  refine ⟨?_, fun h => by omega⟩
  rw [handle_ping hs ht, hT]
  rfl

theorem ping_pong_latency_witness :
    (lookupSession stA "A" =
      some { startTime := 0, language := JVal.str "en-US", isActive := false }) ∧
    (handleWebSocketMessage noFail stA "A"
        [("type", JVal.str "ping"), ("timestamp", JVal.num 3)] 5 =
      (stA, [("A", [("type", JVal.str "pong"), ("timestamp", JVal.num 5),
                    ("latency", JVal.num (5 - 3))])]) ∧
     ((3 : Int) ≤ 5 → (0 : Int) ≤ 5 - 3)) :=
  ⟨by decide,
   ping_pong_latency noFail stA "A"
     (s := { startTime := 0, language := JVal.str "en-US", isActive := false })
     [("type", JVal.str "ping"), ("timestamp", JVal.num 3)] 5 3
     (by decide) (by decide) (by decide)⟩

/-- C6: removing a session id is idempotent: removing an absent id (in
particular a second removal after a duplicate close or error event) leaves
the store unchanged; removal is a total function, so it cannot throw. -/
theorem remove_session_idempotent :
    (∀ (st : ServerState) (sid : String), sid ∉ sessionKeys st →
      deleteSession st sid = st) ∧
    (∀ (st : ServerState) (sid : String),
      deleteSession (deleteSession st sid) sid = deleteSession st sid) ∧
    (∀ (fails : String → Bool) (st : ServerState) (sid : String),
      stepEvent fails (stepEvent fails st (Event.close sid)).1 (Event.close sid) =
        ((stepEvent fails st (Event.close sid)).1, []) ∧
      stepEvent fails (stepEvent fails st (Event.error sid)).1 (Event.error sid) =
        ((stepEvent fails st (Event.error sid)).1, [])) := by
  refine ⟨?_, ?_, ?_⟩
  · intro st sid h
    cases st with
    | mk l =>
      simp only [sessionKeys] at h
      simp [deleteSession, deleteEntry_absent h]
  · intro st sid
    simp [deleteSession, deleteEntry_idem]
  · intro fails st sid
    constructor <;> simp [stepEvent, deleteSession, deleteEntry_idem]

theorem remove_session_idempotent_witness :
    "Z" ∉ sessionKeys stAB ∧ deleteSession stAB "Z" = stAB ∧
    deleteSession (deleteSession stAB "A") "A" = deleteSession stAB "A" ∧
    stepEvent noFail (stepEvent noFail stAB (Event.close "A")).1 (Event.close "A") =
      ((stepEvent noFail stAB (Event.close "A")).1, []) :=
  ⟨by decide, remove_session_idempotent.1 stAB "Z" (by decide),
   remove_session_idempotent.2.1 stAB "A",
   (remove_session_idempotent.2.2 noFail stAB "A").1⟩

/-- C7: a message from a stored session whose `type` is none of the four
known kinds is answered with `error: Unknown message type: <type>` on that
session's channel, the state is unchanged, and the connection survives: a
later `ping` on the same session is still answered with `pong`. -/
theorem unknown_type_error_reply
    (fails : String → Bool) (st : ServerState) (sid : String) {s : Session}
    (data : JObj) (now : Int)
    (hs : lookupSession st sid = some s)
    (h1 : jget data "type" ≠ some (JVal.str "start_listening"))
    (h2 : jget data "type" ≠ some (JVal.str "stop_listening"))
    (h3 : jget data "type" ≠ some (JVal.str "subtitle_update"))
    (h4 : jget data "type" ≠ some (JVal.str "ping")) :
    handleWebSocketMessage fails st sid data now =
      (st, [(sid, [("type", JVal.str "error"),
        ("message",
          JVal.str ("Unknown message type: " ++ jsToString (jget data "type")))])]) ∧
    (∀ T now2, handleWebSocketMessage fails st sid
        [("type", JVal.str "ping"), ("timestamp", JVal.num T)] now2 =
      (st, [(sid, [("type", JVal.str "pong"), ("timestamp", JVal.num now2),
                   ("latency", JVal.num (now2 - T))])])) := by
  refine ⟨handle_default hs h1 h2 h3 h4, ?_⟩
  intro T now2
  rw [handle_ping hs
    (show jget [("type", JVal.str "ping"), ("timestamp", JVal.num T)] "type" =
      some (JVal.str "ping") from rfl)]
  rfl

theorem unknown_type_error_reply_witness :
    (lookupSession stA "A" =
      some { startTime := 0, language := JVal.str "en-US", isActive := false }) ∧
    (handleWebSocketMessage noFail stA "A" [("type", JVal.str "foo")] 5 =
      (stA, [("A", [("type", JVal.str "error"),
        ("message", JVal.str ("Unknown message type: " ++
          jsToString (jget [("type", JVal.str "foo")] "type")))])]) ∧
     (∀ T now2, handleWebSocketMessage noFail stA "A"
         [("type", JVal.str "ping"), ("timestamp", JVal.num T)] now2 =
       (stA, [("A", [("type", JVal.str "pong"), ("timestamp", JVal.num now2),
                     ("latency", JVal.num (now2 - T))])]))) ∧
    jsToString (jget [("type", JVal.str "foo")] "type") = "foo" :=
  ⟨by decide,
   unknown_type_error_reply noFail stA "A"
     (s := { startTime := 0, language := JVal.str "en-US", isActive := false })
     [("type", JVal.str "foo")] 5
     (by decide) (by decide) (by decide) (by decide) (by decide),
   by decide⟩

/-- C8: a frame that cannot be decoded is answered with
`error: Invalid message format` on the connection's own channel; the state
is unchanged (no session removed, nothing mutated), and the connection
stays usable: a later `ping` on the same session is still answered. -/
theorem invalid_format_error_reply
    (fails : String → Bool) (st : ServerState) (sid : String) (now : Int) :
    stepEvent fails st (Event.frame sid none now) =
      (st, [(sid, [("type", JVal.str "error"),
                   ("message", JVal.str "Invalid message format")])]) ∧
    (∀ s, lookupSession st sid = some s →
      lookupSession (stepEvent fails st (Event.frame sid none now)).1 sid = some s ∧
      ∀ T now2, stepEvent fails st
          (Event.frame sid
            (some [("type", JVal.str "ping"), ("timestamp", JVal.num T)]) now2) =
        (st, [(sid, [("type", JVal.str "pong"), ("timestamp", JVal.num now2),
                     ("latency", JVal.num (now2 - T))])])) := by
  refine ⟨by simp [stepEvent], ?_⟩
  intro s hs
  refine ⟨by simpa [stepEvent] using hs, ?_⟩
  intro T now2
  show handleWebSocketMessage fails st sid
      [("type", JVal.str "ping"), ("timestamp", JVal.num T)] now2 = _
  rw [handle_ping hs
    (show jget [("type", JVal.str "ping"), ("timestamp", JVal.num T)] "type" =
      some (JVal.str "ping") from rfl)]
  rfl

theorem invalid_format_error_reply_witness :
    (stepEvent noFail stA (Event.frame "A" none 5) =
      (stA, [("A", [("type", JVal.str "error"),
                    ("message", JVal.str "Invalid message format")])]) ∧
     (∀ s, lookupSession stA "A" = some s →
       lookupSession (stepEvent noFail stA (Event.frame "A" none 5)).1 "A" = some s ∧
       ∀ T now2, stepEvent noFail stA
           (Event.frame "A"
             (some [("type", JVal.str "ping"), ("timestamp", JVal.num T)]) now2) =
         (stA, [("A", [("type", JVal.str "pong"), ("timestamp", JVal.num now2),
                       ("latency", JVal.num (now2 - T))])]))) ∧
    lookupSession stA "A" =
      some { startTime := 0, language := JVal.str "en-US", isActive := false } :=
  ⟨invalid_format_error_reply noFail stA "A" 5, by decide⟩

/-- C9: the health query's `activeSessions` field is the number of sessions
present in the store — the live count; the `/api/sessions` active-flag count
is a different quantity (they differ e.g. when some session is inactive). -/
theorem health_active_sessions_is_live_count :
    (∀ (st : ServerState) (now uptime : Int),
      jget (apiHealth st now uptime) "activeSessions" =
        some (JVal.num (st.activeSessions.length : Int))) ∧
    (∃ st : ServerState,
      (apiSessionsSummary st).2 ≠ (st.activeSessions.length : Int)) := by
  constructor
  · intro st now uptime
    rfl
  · exact ⟨stAB, by decide⟩

/-! ## State-machine lemmas for the per-session lifecycle -/

theorem flag_change_only_start_stop
    (fails : String → Bool) (st : ServerState) (sid sid' : String) (data : JObj)
    (now : Int) (s s' : Session)
    (hs' : lookupSession st sid' = some s)
    (ha : lookupSession (handleWebSocketMessage fails st sid data now).1 sid' = some s')
    (hne : s'.isActive ≠ s.isActive) :
    sid' = sid ∧
      ((s'.isActive = true ∧ jget data "type" = some (JVal.str "start_listening")) ∨
       (s'.isActive = false ∧ jget data "type" = some (JVal.str "stop_listening"))) := by
  have contra : lookupSession st sid' = some s' → False := fun h =>
    hne (congrArg Session.isActive (Option.some.inj (hs'.symm.trans h)).symm)
  cases hsid : lookupSession st sid with
  | none =>
    rw [handle_absent hsid] at ha
    exact (contra ha).elim
  | some s₀ =>
    by_cases h1 : jget data "type" = some (JVal.str "start_listening")
    · rw [handle_start hsid h1] at ha
      by_cases hss : sid' = sid
      · subst hss
        have ha2 : lookupEntry (setEntry st.activeSessions sid'
            { s₀ with isActive := true,
                      language := jsOrDefault (jget data "language") (JVal.str "en-US"),
                      startTime := now }) sid' = some s' := ha
        rw [lookupEntry_setEntry_self] at ha2
        injection ha2 with hv
        exact ⟨rfl, Or.inl ⟨by rw [← hv], h1⟩⟩
      · have ha2 : lookupEntry (setEntry st.activeSessions sid
            { s₀ with isActive := true,
                      language := jsOrDefault (jget data "language") (JVal.str "en-US"),
                      startTime := now }) sid' = some s' := ha
        rw [lookupEntry_setEntry_ne _ _ hss] at ha2
        exact (contra ha2).elim
    · by_cases h2 : jget data "type" = some (JVal.str "stop_listening")
      · rw [handle_stop hsid h2] at ha
        by_cases hss : sid' = sid
        · subst hss
          have ha2 : lookupEntry (setEntry st.activeSessions sid'
              { s₀ with isActive := false }) sid' = some s' := ha
          rw [lookupEntry_setEntry_self] at ha2
          injection ha2 with hv
          exact ⟨rfl, Or.inr ⟨by rw [← hv], h2⟩⟩
        · have ha2 : lookupEntry (setEntry st.activeSessions sid
              { s₀ with isActive := false }) sid' = some s' := ha
          rw [lookupEntry_setEntry_ne _ _ hss] at ha2
          exact (contra ha2).elim
      · by_cases h3 : jget data "type" = some (JVal.str "subtitle_update")
        · rw [handle_subtitle hsid h3, broadcastSubtitle_fst] at ha
          exact (contra ha).elim
        · by_cases h4 : jget data "type" = some (JVal.str "ping")
          · rw [handle_ping hsid h4] at ha
            exact (contra ha).elim
          · rw [handle_default hsid h1 h2 h3 h4] at ha
            exact (contra ha).elim

theorem ping_subtitle_ignore_sender_flag
    (fails : String → Bool) (st : ServerState) (sid : String) (s : Session)
    (data : JObj) (now : Int) (b : Bool)
    (hs : lookupSession st sid = some s)
    (hty : jget data "type" = some (JVal.str "ping") ∨
           jget data "type" = some (JVal.str "subtitle_update")) :
    handleWebSocketMessage fails
        ⟨setEntry st.activeSessions sid { s with isActive := b }⟩ sid data now =
      (⟨setEntry st.activeSessions sid { s with isActive := b }⟩,
       (handleWebSocketMessage fails st sid data now).2) := by
  have hs2 : lookupSession ⟨setEntry st.activeSessions sid { s with isActive := b }⟩ sid =
      some { s with isActive := b } := lookupEntry_setEntry_self _ _ _
  cases hty with
  | inl hping =>
    rw [handle_ping hs2 hping, handle_ping hs hping]
  | inr hsub =>
    rw [handle_subtitle hs2 hsub, handle_subtitle hs hsub]
    simp only [broadcastSubtitle, hs2, hs]
    rw [broadcastLoop_setEntry_sender]

/-- C2: per-session state machine: a session enters the store inactive on
connection accept (and a connect touches no other session's entry); the
active flag becomes true only through the session's own `start_listening`
and false only through its own `stop_listening`; close and transport error
remove the session from the store; a malformed frame changes no state; and
`ping`/`subtitle_update` are processed identically whether the session's
flag is true or false. -/
theorem session_state_machine :
    (∀ (fails : String → Bool) (st : ServerState) (sid : String) (now : Int),
      lookupSession (stepEvent fails st (Event.connect sid now)).1 sid =
        some { startTime := now, language := JVal.str "en-US", isActive := false } ∧
      ∀ sid', sid' ≠ sid →
        lookupSession (stepEvent fails st (Event.connect sid now)).1 sid' =
          lookupSession st sid') ∧
    (∀ (fails : String → Bool) (st : ServerState) (sid sid' : String) (data : JObj)
        (now : Int) (s s' : Session),
      lookupSession st sid' = some s →
      lookupSession (handleWebSocketMessage fails st sid data now).1 sid' = some s' →
      s'.isActive ≠ s.isActive →
      sid' = sid ∧
        ((s'.isActive = true ∧ jget data "type" = some (JVal.str "start_listening")) ∨
         (s'.isActive = false ∧ jget data "type" = some (JVal.str "stop_listening")))) ∧
    (∀ (fails : String → Bool) (st : ServerState) (sid : String),
      lookupSession (stepEvent fails st (Event.close sid)).1 sid = none ∧
      lookupSession (stepEvent fails st (Event.error sid)).1 sid = none) ∧
    (∀ (fails : String → Bool) (st : ServerState) (sid : String) (now : Int),
      (stepEvent fails st (Event.frame sid none now)).1 = st) ∧
    (∀ (fails : String → Bool) (st : ServerState) (sid : String) (s : Session)
        (data : JObj) (now : Int) (b : Bool),
      lookupSession st sid = some s →
      (jget data "type" = some (JVal.str "ping") ∨
       jget data "type" = some (JVal.str "subtitle_update")) →
      handleWebSocketMessage fails
          ⟨setEntry st.activeSessions sid { s with isActive := b }⟩ sid data now =
        (⟨setEntry st.activeSessions sid { s with isActive := b }⟩,
         (handleWebSocketMessage fails st sid data now).2)) := by
  refine ⟨?_, ?_, ?_, ?_, ?_⟩
  · intro fails st sid now
    exact ⟨lookupEntry_setEntry_self _ _ _, fun sid' h => lookupEntry_setEntry_ne _ _ h⟩
  · intro fails st sid sid' data now s s' hs' ha hne
    exact flag_change_only_start_stop fails st sid sid' data now s s' hs' ha hne
  · intro fails st sid
    exact ⟨lookupEntry_deleteEntry_self _ _, lookupEntry_deleteEntry_self _ _⟩
  · intro fails st sid now
    rfl
  · intro fails st sid s data now b hs hty
    exact ping_subtitle_ignore_sender_flag fails st sid s data now b hs hty

theorem session_state_machine_witness :
    (lookupSession (stepEvent noFail stA (Event.connect "B" 3)).1 "B" =
      some { startTime := 3, language := JVal.str "en-US", isActive := false }) ∧
    (lookupSession (stepEvent noFail stA (Event.connect "B" 3)).1 "A" =
      lookupSession stA "A") ∧
    (("B" : String) = "B" ∧
      ((Session.isActive
          { startTime := 0, language := JVal.str "en-US", isActive := false } = true ∧
        jget [("type", JVal.str "stop_listening")] "type" =
          some (JVal.str "start_listening")) ∨
       (Session.isActive
          { startTime := 0, language := JVal.str "en-US", isActive := false } = false ∧
        jget [("type", JVal.str "stop_listening")] "type" =
          some (JVal.str "stop_listening")))) ∧
    (lookupSession (stepEvent noFail stAB (Event.close "A")).1 "A" = none) ∧
    ((stepEvent noFail stAB (Event.frame "A" none 9)).1 = stAB) ∧
    (handleWebSocketMessage noFail
        ⟨setEntry stA.activeSessions "A"
          { startTime := 0, language := JVal.str "en-US", isActive := true }⟩ "A"
        [("type", JVal.str "ping"), ("timestamp", JVal.num 1)] 2 =
      (⟨setEntry stA.activeSessions "A"
          { startTime := 0, language := JVal.str "en-US", isActive := true }⟩,
       (handleWebSocketMessage noFail stA "A"
          [("type", JVal.str "ping"), ("timestamp", JVal.num 1)] 2).2)) :=
  ⟨(session_state_machine.1 noFail stA "B" 3).1,
   (session_state_machine.1 noFail stA "B" 3).2 "A" (by decide),
   session_state_machine.2.1 noFail stB "B" "B" [("type", JVal.str "stop_listening")] 4
     { startTime := 0, language := JVal.str "en-US", isActive := true }
     { startTime := 0, language := JVal.str "en-US", isActive := false }
     (by decide) (by decide) (by decide),
   (session_state_machine.2.2.1 noFail stAB "A").1,
   session_state_machine.2.2.2.1 noFail stAB "A" 9,
   session_state_machine.2.2.2.2 noFail stA "A"
     { startTime := 0, language := JVal.str "en-US", isActive := false }
     [("type", JVal.str "ping"), ("timestamp", JVal.num 1)] 2 true
     (by decide) (Or.inl (by decide))⟩
